import Mathlib

/-!
# Assessment component (`src/site/_includes/components/Assessment.js`)

A shallow embedding of the self-assessment renderer and the properties of its
validation and template composition.

Modelling conventions.

* JavaScript strings are Lean strings; the regular expressions of the source only
  distinguish ASCII characters, so they are evaluated on the list of characters.
* A field that the code only tests for truthiness and then uses as a string
  (`cardinality`, `correctAnswers`, `setLeader`, `content`, ...) is an
  `Option String`: `none` is the absent field, and the empty string is falsy as
  in JavaScript.
* The fields `type` and `columns`, which the code compares with values of several
  kinds, are `JSVal`.
* The tagged template `html` of the library `common-tags` builds a string; here the
  string is kept as the tree of its template: every element written in a template
  is an `element` node, every substituted string a `raw` node, a substituted array
  is inlined in order, and substitutions that print nothing (`undefined`, `false`)
  leave nothing behind.
* `throw` is `Except.error`; the markdown collaborators are parameters.
-/

namespace Assessment

/-! ## JavaScript values -/

/-- The primitive values a field of an assessment file is read as; numbers are the
integer-valued ones. -/
inductive JSVal where
  | undefined
  | null
  | bool (b : Bool)
  | num (n : Int)
  | str (s : String)
  deriving DecidableEq

/-- ToBoolean on the modelled values. -/
def JSVal.truthy : JSVal → Bool
  | .undefined => false
  | .null => false
  | .bool b => b
  | .num n => n != 0
  | .str s => s != ""

/-- ToBoolean of an optional string field: absent and empty are falsy. -/
def truthyStr : Option String → Bool
  | none => false
  | some s => s != ""

/-- White space skipped by the string-to-number conversion (the ASCII part). -/
def isJSSpace (c : Char) : Bool :=
  c == ' ' || c == '\t' || c == '\n' || c == '\r' || c == '\x0b' || c == '\x0c'

/-- Value of a non-empty run of decimal digits. -/
def digitsValue : List Char → Nat → Option Nat
  | [], acc => some acc
  | c :: cs, acc => if c.isDigit then digitsValue cs (10 * acc + (c.toNat - 48)) else none

/-- Numeric reading of a trimmed string: empty is `0`, an optionally signed run of
decimal digits is its value, anything else is `NaN` (`none`). Literals with a
fraction, an exponent or a radix prefix are outside the integer-valued numbers of
`JSVal` and are read as `NaN` as well. -/
def trimmedToNumber : List Char → Option Int
  | [] => some 0
  | '-' :: c :: cs => (digitsValue (c :: cs) 0).map (fun n => - (n : Int))
  | '+' :: c :: cs => (digitsValue (c :: cs) 0).map (fun n => (n : Int))
  | c :: cs => if c == '-' || c == '+' then none else (digitsValue (c :: cs) 0).map (fun n => (n : Int))

/-- ToNumber on a string. -/
def stringToNumber (s : String) : Option Int :=
  trimmedToNumber ((s.data.dropWhile isJSSpace).reverse.dropWhile isJSSpace).reverse

/-- The loose comparison `v == b` with a boolean `b`: a boolean is compared as such,
otherwise `b` is converted to `0`/`1`, a number is compared with it, a string is
converted to a number first, and `undefined`/`null` equal no number. -/
def JSVal.looseEqBool (v : JSVal) (b : Bool) : Bool :=
  match v with
  | .undefined => false
  | .null => false
  | .bool c => c == b
  | .num n => n == (if b then 1 else 0)
  | .str s => stringToNumber s == some (if b then 1 else 0)

/-- The strict comparison `v === s` with a string literal `s`. -/
def JSVal.strictEqStr (v : JSVal) (s : String) : Bool :=
  match v with
  | .str t => t == s
  | _ => false

/-! ## The regular expressions of `responseTemplate` -/

/-- The class `\d`. -/
def isDigit (c : Char) : Bool := c.isDigit

/-- Pattern `/^\d+$/`. -/
def reDigits (s : List Char) : Bool :=
  !s.isEmpty && s.all isDigit

/-- Pattern `/^\d+\+$/`. -/
def reDigitsPlus (s : List Char) : Bool :=
  reDigits s.dropLast && s.getLast? == some '+'

/-- Pattern `/^\d-\d+$/`. -/
def reDigitDashDigits : List Char → Bool
  | c :: '-' :: rest => isDigit c && reDigits rest
  | _ => false

/-- Pattern `(,\d)*$`, the tail of the next one. -/
def reCommaDigitStar : List Char → Bool
  | [] => true
  | ',' :: c :: rest => isDigit c && reCommaDigitStar rest
  | _ => false

/-- Pattern `/^\d(,\d)*$/`. -/
def reDigitList : List Char → Bool
  | c :: rest => isDigit c && reCommaDigitStar rest
  | [] => false

/-! ## Markup -/

/-- An attribute position of an opening tag. -/
inductive Attr where
  /-- The form `name="value"`. -/
  | quoted (name value : String)
  /-- A bare token: a literal one (`hidden`) or a substituted string, possibly empty. -/
  | bare (token : String)
  deriving DecidableEq

/-- The markup a template produces. -/
inductive Markup where
  /-- A substituted string: author text or the output of a markdown collaborator. -/
  | raw (s : String)
  /-- An element written in a template, with the names of its opening and closing tag. -/
  | element (openTag : String) (attrs : List Attr) (children : List Markup) (closeTag : String)

/-- The children of a node. -/
def Markup.children : Markup → List Markup
  | .raw _ => []
  | .element _ _ cs _ => cs

/-- The attributes of a node. -/
def Markup.attrs : Markup → List Attr
  | .raw _ => []
  | .element _ as _ _ => as

/-- The opening tag name of a node. -/
def Markup.openTag : Markup → Option String
  | .raw _ => none
  | .element t _ _ _ => some t

/-- The closing tag name of a node. -/
def Markup.closeTag : Markup → Option String
  | .raw _ => none
  | .element _ _ _ t => some t

mutual
/-- The heads (tag name and attributes) of all element nodes of a tree, in document
order. -/
def Markup.nodes : Markup → List (String × List Attr)
  | .raw _ => []
  | .element t as cs _ => (t, as) :: Markup.nodesList cs
/-- The heads of all element nodes of a forest, in document order. -/
def Markup.nodesList : List Markup → List (String × List Attr)
  | [] => []
  | m :: ms => Markup.nodes m ++ Markup.nodesList ms
end

/-- The tokens of a class attribute value, which are separated by spaces. -/
def classTokensAux : List Char → List Char → List String
  | [], cur => if cur.isEmpty then [] else [String.mk cur.reverse]
  | c :: cs, cur =>
    if c == ' ' then
      (if cur.isEmpty then classTokensAux cs [] else String.mk cur.reverse :: classTokensAux cs [])
    else classTokensAux cs (c :: cur)

/-- The class list of a class attribute value. -/
def classTokens (v : String) : List String := classTokensAux v.data []

/-- Whether an opening tag carries the class `c`. -/
def hasClass (c : String) (as : List Attr) : Bool :=
  as.any fun a =>
    match a with
    | .quoted n v => n == "class" && (classTokens v).contains c
    | .bare _ => false

/-! ## Data model -/

/-- An answer option. -/
structure AnswerOption where
  content : Option String
  rationale : Option String

/-- A response component. The stem is the string handed to the markdown
collaborator; `options` may be absent. -/
structure Response where
  type : JSVal
  cardinality : Option String
  correctAnswers : Option String
  columns : JSVal
  stem : String
  options : Option (List AnswerOption)

/-- A question: it may list its response components, and otherwise carries the
fields of a response itself. -/
structure Question extends Response where
  stimulus : Option String
  components : Option (List Response)

/-- An assessment, the `assessment` export of a `*.assess.js` file. -/
structure AssessmentData where
  setLeader : Option String
  tabLabel : Option String
  height : Option String
  questions : List Question

/-- The page object; only `filePathStem` is read. -/
structure Page where
  filePathStem : String

/-- The errors thrown while rendering, one per `throw` of the source, with the
`TypeError` of `response.options.map` on an absent `options` and the failure of
`require`. -/
inductive Error where
  | missingType
  | cardinality
  | correctAnswers
  | columns
  | unrecognizedType
  | optionsMissing
  | missingPage
  | missingTarget
  | notFound
  deriving DecidableEq

/-- The markdown collaborators: `md.renderInline`, `md.render` and the `md-block`
filter. -/
structure Markdown where
  renderInline : String → String
  render : String → String
  mdBlock : String → String

/-- What a substituted optional string prints: `html` prints nothing for `undefined`. -/
def printed : Option String → String
  | none => ""
  | some s => s

/-- The method `Array.prototype.map` with a callback that may throw: the elements are
visited in order and the first throw ends the call. -/
def arrayMap {α β : Type} (f : α → Except Error β) : List α → Except Error (List β)
  | [] => .ok []
  | a :: as =>
    match f a with
    | .error e => .error e
    | .ok b =>
      match arrayMap f as with
      | .error e => .error e
      | .ok bs => .ok (b :: bs)

/-! ## Templates -/

/-- The function `optionContentTemplate`; `none` is the `undefined` of the early return. -/
def optionContentTemplate (md : Markdown) (option : AnswerOption) : Option Markup :=
  if !truthyStr option.content then none
  else some (.element "span" [.quoted "data-role" "option"]
    [.raw (md.renderInline (printed option.content))] "span")

/-- The function `rationaleTemplate`. -/
def rationaleTemplate (md : Markdown) (option : AnswerOption) : Option Markup :=
  if !truthyStr option.rationale then none
  else some (.element "div" [.quoted "data-role" "rationale"]
    [.raw (md.render (printed option.rationale))] "div")

/-- The test of a regular expression on an optional string field (only reached when
the field is truthy). -/
def reTest (re : List Char → Bool) (v : Option String) : Bool := re (printed v).data

/-- The `switch` on `response.type`. -/
def typeSuffix (type : JSVal) : Except Error String :=
  if type.strictEqStr "think-and-check" then .ok "-tac"
  else if type.strictEqStr "multiple-choice" then .ok "-mc"
  else .error .unrecognizedType

/-- The function `responseTemplate`. -/
def responseTemplate (md : Markdown) (response : Response) : Except Error Markup :=
  if !response.type.truthy then .error .missingType
  else if truthyStr response.cardinality
      && !reTest reDigits response.cardinality
      && !reTest reDigitsPlus response.cardinality
      && !reTest reDigitDashDigits response.cardinality then .error .cardinality
  else if truthyStr response.correctAnswers
      && !reTest reDigitList response.correctAnswers then .error .correctAnswers
  else if response.columns.truthy
      && !response.columns.looseEqBool true
      && !response.columns.looseEqBool false then .error .columns
  else
    match typeSuffix response.type with
    | .error e => .error e
    | .ok typeSuffix =>
      let cardinalityAttr :=
        if truthyStr response.cardinality then "cardinality=" ++ printed response.cardinality else ""
      let correctAnswersAttr :=
        if truthyStr response.correctAnswers then "correct-answer=" ++ printed response.correctAnswers
        else ""
      let columnsAttr := if response.columns.truthy then "columns" else ""
      match response.options with
      | none => .error .optionsMissing
      | some options =>
        .ok (.element ("web-response" ++ typeSuffix)
          [.bare cardinalityAttr, .bare correctAnswersAttr, .bare columnsAttr,
            .quoted "class" "web-response"]
          ([.element "p" [] [.raw (md.renderInline response.stem)] "p"]
            ++ options.filterMap (optionContentTemplate md)
            ++ options.filterMap (rationaleTemplate md))
          ("web-response" ++ typeSuffix))

/-- The function `responsesTemplate`: one response, or the array of the components'
responses, as the list that `html` inlines. -/
def responsesTemplate (md : Markdown) (question : Question) : Except Error (List Markup) :=
  match question.components with
  | none =>
    match responseTemplate md question.toResponse with
    | .error e => .error e
    | .ok m => .ok [m]
  | some components => arrayMap (responseTemplate md) components

/-- The function `questionTemplate`. -/
def questionTemplate (md : Markdown) (question : Question) : Except Error Markup :=
  let stimulus : List Markup :=
    if truthyStr question.stimulus then
      [.element "div" [.quoted "data-role" "stimulus"]
        [.raw (md.mdBlock (printed question.stimulus))] "div"]
    else []
  match responsesTemplate md question with
  | .error e => .error e
  | .ok responses => .ok (.element "web-question" [] (stimulus ++ responses) "web-question")

/-- The function `tabTemplate`. -/
def tabTemplate (md : Markdown) (question : Question) (assessment : AssessmentData) :
    Except Error Markup :=
  match questionTemplate md question with
  | .error e => .error e
  | .ok q =>
    .ok (.element "div"
      [.quoted "class" "web-tabs__panel", .quoted "role" "tabpanel",
        .quoted "data-label" (printed assessment.tabLabel), .bare "hidden"]
      [q] "div")

/-- The function `contentTemplate`. -/
def contentTemplate (md : Markdown) (assessment : AssessmentData) : Except Error Markup :=
  if assessment.questions.length > 1 then
    match arrayMap (fun question => tabTemplate md question assessment) assessment.questions with
    | .error e => .error e
    | .ok tabs =>
      .ok (.element "web-tabs"
        [.quoted "class" "web-assessment__content",
          .quoted "label" (printed assessment.tabLabel ++ "s for knowledge self check")]
        tabs "web-tabs")
  else
    match arrayMap (questionTemplate md) assessment.questions with
    | .error e => .error e
    | .ok questions =>
      .ok (.element "div" [.quoted "class" "web-assessment__content"] questions "div")

/-- The function `headerTemplate`; `none` is the `undefined` it returns without a banner. -/
def headerTemplate (assessment : AssessmentData) : Option Markup :=
  if truthyStr assessment.setLeader && assessment.questions.length > 1 then
    some (.element "div" [.quoted "class" "w-callout__blurb web-assessment__set-leader"]
      [.raw (printed assessment.setLeader)] "div")
  else none

/-- The replacement `replace(/index$/, "")` on characters. -/
def stripIndexChars (s : List Char) : List Char :=
  if "index".data.isSuffixOf s then s.take (s.length - 5) else s

/-- The expression `page.filePathStem.replace(/index$/, "")`. -/
def stripIndex (s : String) : String := String.mk (stripIndexChars s.data)

/-- The argument of `require`. -/
def assessmentPath (filePathStem targetAssessment : String) : String :=
  "../../content" ++ stripIndex filePathStem ++ targetAssessment ++ ".assess.js"

/-- The exported function. `require` is the content lookup: it yields the `assessment`
export of the file at the path, or fails. -/
def moduleExports (md : Markdown) (require : String → Option AssessmentData)
    (page : Option Page) (targetAssessment : Option String) : Except Error Markup :=
  match page with
  | none => .error .missingPage
  | some page =>
    if !truthyStr targetAssessment then .error .missingTarget
    else
      match require (assessmentPath page.filePathStem (printed targetAssessment)) with
      | none => .error .notFound
      | some assessment =>
        let height :=
          if truthyStr assessment.height then "style=height:" ++ printed assessment.height ++ ";"
          else ""
        let singleton :=
          if assessment.questions.length == 1 then "web-assessment--singleton" else ""
        match contentTemplate md assessment with
        | .error e => .error e
        | .ok content =>
          .ok (.element "web-assessment"
            [.bare height, .quoted "class" ("w-callout " ++ singleton),
              .quoted "aria-label" "Check your understanding"]
            ((headerTemplate assessment).toList ++ [content]) "web-assessment")

/-! ## Validity of the input, read off the checks of `responseTemplate` -/

/-- Whether the call returned. -/
def succeeds {α : Type} : Except Error α → Bool
  | .ok _ => true
  | .error _ => false

/-- A response that passes every check of `responseTemplate` and has its `options`. -/
def Response.valid (r : Response) : Bool :=
  r.type.truthy
    && !(truthyStr r.cardinality && !reTest reDigits r.cardinality
          && !reTest reDigitsPlus r.cardinality && !reTest reDigitDashDigits r.cardinality)
    && !(truthyStr r.correctAnswers && !reTest reDigitList r.correctAnswers)
    && !(r.columns.truthy && !r.columns.looseEqBool true && !r.columns.looseEqBool false)
    && (r.type.strictEqStr "think-and-check" || r.type.strictEqStr "multiple-choice")
    && r.options.isSome

/-- A question all of whose responses are valid. -/
def Question.valid (q : Question) : Bool :=
  match q.components with
  | none => q.toResponse.valid
  | some components => components.all Response.valid

/-- An assessment all of whose responses are valid. -/
def AssessmentData.valid (a : AssessmentData) : Bool := a.questions.all Question.valid

/-! ## The wording of the specification, for comparison with the code -/

/-- A non-negative decimal integer of one or more digits. -/
def specNat (s : List Char) : Bool := !s.isEmpty && s.all Char.isDigit

/-- The three cardinality forms of the specification: `n`, `n+` or `n-m`. -/
def specCardinality (s : List Char) : Bool :=
  specNat s
    || (s.getLast? == some '+' && specNat s.dropLast)
    || (match s.span (fun c => c != '-') with
        | (n, '-' :: m) => specNat n && specNat m
        | _ => false)

/-- The items of a comma-separated list. -/
def splitCommas : List Char → List (List Char)
  | [] => [[]]
  | c :: cs =>
    if c == ',' then [] :: splitCommas cs
    else
      match splitCommas cs with
      | [] => [[c]]
      | item :: items => (c :: item) :: items

/-- A positive decimal integer: one or more digits with a value of at least `1`. -/
def specPositiveInt (s : List Char) : Bool :=
  specNat s && (match digitsValue s 0 with
    | some n => decide (1 ≤ n)
    | none => false)

/-- A comma-separated list of positive integers, as the specification words it. -/
def specCorrectAnswers (s : List Char) : Bool := (splitCommas s).all specPositiveInt

/-- The last path segment: what follows the last `/`. -/
def lastSegment (s : List Char) : List Char :=
  (s.reverse.takeWhile (fun c => c != '/')).reverse

/-! ## The parts of the rendered markup, named for the statements -/

/-- The opening tag attributes of a rendered response. -/
def responseAttrs (r : Response) : List Attr :=
  [.bare (if truthyStr r.cardinality then "cardinality=" ++ printed r.cardinality else ""),
    .bare (if truthyStr r.correctAnswers then "correct-answer=" ++ printed r.correctAnswers else ""),
    .bare (if r.columns.truthy then "columns" else ""),
    .quoted "class" "web-response"]

/-- The children of a rendered response. -/
def responseBody (md : Markdown) (r : Response) (os : List AnswerOption) : List Markup :=
  [.element "p" [] [.raw (md.renderInline r.stem)] "p"]
    ++ os.filterMap (optionContentTemplate md)
    ++ os.filterMap (rationaleTemplate md)

/-- The optional stimulus block that opens a rendered question. -/
def stimulusBlock (md : Markdown) (q : Question) : List Markup :=
  if truthyStr q.stimulus then
    [.element "div" [.quoted "data-role" "stimulus"] [.raw (md.mdBlock (printed q.stimulus))] "div"]
  else []

/-- The attributes of a tab panel. -/
def panelAttrs (a : AssessmentData) : List Attr :=
  [.quoted "class" "web-tabs__panel", .quoted "role" "tabpanel",
    .quoted "data-label" (printed a.tabLabel), .bare "hidden"]

/-- The attributes of the tabs container. -/
def tabsAttrs (a : AssessmentData) : List Attr :=
  [.quoted "class" "web-assessment__content",
    .quoted "label" (printed a.tabLabel ++ "s for knowledge self check")]

/-- The attributes of the root element. -/
def rootAttrs (a : AssessmentData) : List Attr :=
  [.bare (if truthyStr a.height then "style=height:" ++ printed a.height ++ ";" else ""),
    .quoted "class"
      ("w-callout " ++ (if a.questions.length == 1 then "web-assessment--singleton" else "")),
    .quoted "aria-label" "Check your understanding"]

/-- A property that holds of the head of every element written by the templates of a
question below the `web-question` element. -/
structure InnerShapes (P : String × List Attr → Prop) : Prop where
  para : P ("p", [])
  option : P ("span", [.quoted "data-role" "option"])
  rationale : P ("div", [.quoted "data-role" "rationale"])
  stimulus : P ("div", [.quoted "data-role" "stimulus"])
  response : ∀ sfx a b c, sfx = "-tac" ∨ sfx = "-mc" →
    P ("web-response" ++ sfx, [.bare a, .bare b, .bare c, .quoted "class" "web-response"])

/-! ## Lemmas on `responseTemplate` -/

theorem typeSuffix_ok_iff (t : JSVal) (sfx : String) :
    typeSuffix t = .ok sfx ↔
      (t = .str "think-and-check" ∧ sfx = "-tac") ∨ (t = .str "multiple-choice" ∧ sfx = "-mc") := by
  have hne : ("multiple-choice" : String) ≠ "think-and-check" := by decide
  unfold typeSuffix JSVal.strictEqStr
  cases t <;> simp
  rename_i s
  by_cases h1 : s = "think-and-check"
  · subst h1
    simp [hne.symm, eq_comm]
  · by_cases h2 : s = "multiple-choice"
    · subst h2
      simp [hne, eq_comm]
    · simp [h1, h2]

theorem responseTemplate_of_valid (md : Markdown) (r : Response) (h : r.valid = true) :
    ∃ sfx os, typeSuffix r.type = .ok sfx ∧ r.options = some os ∧
      responseTemplate md r =
        .ok (.element ("web-response" ++ sfx) (responseAttrs r) (responseBody md r os)
          ("web-response" ++ sfx)) := by
  unfold Response.valid at h
  simp only [Bool.and_eq_true, Bool.not_eq_true', Bool.or_eq_true] at h
  obtain ⟨⟨⟨⟨⟨h1, h2⟩, h3⟩, h4⟩, h5⟩, h6⟩ := h
  obtain ⟨os, hos⟩ := Option.isSome_iff_exists.mp h6
  have hs : ∃ sfx, typeSuffix r.type = .ok sfx := by
    unfold typeSuffix
    rcases h5 with h5 | h5
    · exact ⟨"-tac", by simp [h5]⟩
    · by_cases h7 : r.type.strictEqStr "think-and-check" = true
      · exact ⟨"-tac", by simp [h7]⟩
      · exact ⟨"-mc", by simp [h7, h5]⟩
  obtain ⟨sfx, hsfx⟩ := hs
  refine ⟨sfx, os, hsfx, hos, ?_⟩
  unfold responseTemplate
  simp only [h1, h2, h3, h4, hsfx, hos, Bool.not_true, Bool.false_eq_true, if_false]
  rfl

theorem responseTemplate_of_not_valid (md : Markdown) (r : Response) (h : r.valid = false) :
    ∃ e, responseTemplate md r = .error e := by
  unfold responseTemplate
  dsimp only
  split
  · exact ⟨_, rfl⟩
  split
  · exact ⟨_, rfl⟩
  split
  · exact ⟨_, rfl⟩
  split
  · exact ⟨_, rfl⟩
  split
  · exact ⟨_, rfl⟩
  split
  · exact ⟨_, rfl⟩
  · exfalso
    rename_i h1 h2 h3 h4 _ sfx hs _ os hos
    have hty := (typeSuffix_ok_iff _ _).mp hs
    have : r.valid = true := by
      unfold Response.valid
      simp only [Bool.and_eq_true, Bool.not_eq_true', Bool.or_eq_true]
      refine ⟨⟨⟨⟨⟨?_, ?_⟩, ?_⟩, ?_⟩, ?_⟩, ?_⟩
      · simpa using h1
      · simpa using h2
      · simpa using h3
      · simpa using h4
      · rcases hty with ⟨ht, _⟩ | ⟨ht, _⟩ <;> simp [ht, JSVal.strictEqStr]
      · simp [hos]
    rw [this] at h
    exact Bool.noConfusion h

theorem succeeds_responseTemplate (md : Markdown) (r : Response) :
    succeeds (responseTemplate md r) = r.valid := by
  cases h : r.valid
  · obtain ⟨e, he⟩ := responseTemplate_of_not_valid md r h
    rw [he]; rfl
  · obtain ⟨sfx, os, _, _, he⟩ := responseTemplate_of_valid md r h
    rw [he]; rfl

theorem filterMap_optionContentTemplate (md : Markdown) (os : List AnswerOption) :
    os.filterMap (optionContentTemplate md) =
      (os.filter fun o => truthyStr o.content).map fun o =>
        Markup.element "span" [.quoted "data-role" "option"]
          [.raw (md.renderInline (printed o.content))] "span" := by
  induction os with
  | nil => rfl
  | cons o os ih =>
    by_cases h : truthyStr o.content = true
    · simp [List.filterMap_cons, optionContentTemplate, h, ih]
    · simp [List.filterMap_cons, optionContentTemplate, h, ih]

theorem filterMap_rationaleTemplate (md : Markdown) (os : List AnswerOption) :
    os.filterMap (rationaleTemplate md) =
      (os.filter fun o => truthyStr o.rationale).map fun o =>
        Markup.element "div" [.quoted "data-role" "rationale"]
          [.raw (md.render (printed o.rationale))] "div" := by
  induction os with
  | nil => rfl
  | cons o os ih =>
    by_cases h : truthyStr o.rationale = true
    · simp [List.filterMap_cons, rationaleTemplate, h, ih]
    · simp [List.filterMap_cons, rationaleTemplate, h, ih]

/-! ## Lemmas on `arrayMap` -/

theorem arrayMap_ok_iff {α β : Type} (f : α → Except Error β) (xs : List α) (ys : List β) :
    arrayMap f xs = .ok ys ↔ List.Forall₂ (fun x y => f x = .ok y) xs ys := by
  induction xs generalizing ys with
  | nil =>
    cases ys with
    | nil => simp [arrayMap]
    | cons y ys => simp [arrayMap]
  | cons x xs ih =>
    unfold arrayMap
    cases hx : f x with
    | error e =>
      simp only [false_iff, reduceCtorEq]
      intro h
      cases h with
      | cons h1 _ => rw [hx] at h1; cases h1
    | ok b =>
      cases hxs : arrayMap f xs with
      | error e =>
        simp only [false_iff, reduceCtorEq]
        intro h
        cases h with
        | cons _ h2 => rw [← ih, hxs] at h2; cases h2
      | ok bs =>
        simp only [Except.ok.injEq]
        constructor
        · intro h
          subst h
          exact List.Forall₂.cons hx ((ih bs).mp hxs)
        · intro h
          cases h with
          | cons h1 h2 =>
            rw [hx] at h1
            cases h1
            have := (ih _).mpr h2
            rw [hxs] at this
            cases this
            rfl

theorem arrayMap_of_forall_ok {α β : Type} (f : α → Except Error β) (xs : List α)
    (h : ∀ x ∈ xs, succeeds (f x) = true) :
    ∃ ys, arrayMap f xs = .ok ys ∧ List.Forall₂ (fun x y => f x = .ok y) xs ys
      ∧ ys.length = xs.length := by
  induction xs with
  | nil => exact ⟨[], rfl, List.Forall₂.nil, rfl⟩
  | cons x xs ih =>
    obtain ⟨ys, hys, hall, hlen⟩ := ih (fun y hy => h y (List.mem_cons_of_mem _ hy))
    have hx := h x (List.mem_cons_self _ _)
    cases hfx : f x with
    | error e => rw [hfx] at hx; cases hx
    | ok b =>
      refine ⟨b :: ys, ?_, List.Forall₂.cons hfx hall, by simp [hlen]⟩
      simp [arrayMap, hfx, hys]

theorem arrayMap_first_error {α β : Type} (f : α → Except Error β) (pre : List α) (c : α)
    (post : List α) (e : Error) (hpre : ∀ x ∈ pre, succeeds (f x) = true)
    (hc : f c = .error e) : arrayMap f (pre ++ c :: post) = .error e := by
  induction pre with
  | nil => simp [arrayMap, hc]
  | cons x pre ih =>
    have hx := hpre x (List.mem_cons_self _ _)
    have ih2 := ih (fun y hy => hpre y (List.mem_cons_of_mem _ hy))
    cases hfx : f x with
    | error e2 => rw [hfx] at hx; cases hx
    | ok b =>
      show arrayMap f (x :: (pre ++ c :: post)) = .error e
      simp only [arrayMap, hfx, ih2]

/-! ## The element nodes of the rendered markup -/

theorem nodesList_append (xs ys : List Markup) :
    Markup.nodesList (xs ++ ys) = Markup.nodesList xs ++ Markup.nodesList ys := by
  induction xs with
  | nil => rfl
  | cons x xs ih => simp [Markup.nodesList, ih]

theorem nodesList_map_leaf {α : Type} (t c : String) (as : List Attr) (g : α → String)
    (xs : List α) :
    Markup.nodesList (xs.map fun x => Markup.element t as [.raw (g x)] c)
      = xs.map fun _ => (t, as) := by
  induction xs with
  | nil => rfl
  | cons x xs ih => simp [Markup.nodesList, Markup.nodes, ih]

theorem responseTemplate_nodes (md : Markdown) (P : String × List Attr → Prop)
    (hP : InnerShapes P) (r : Response) (m : Markup) (hm : responseTemplate md r = .ok m) :
    ∀ n ∈ m.nodes, P n := by
  have hv : r.valid = true := by
    rw [← succeeds_responseTemplate md r, hm]; rfl
  obtain ⟨sfx, os, hs, _, he⟩ := responseTemplate_of_valid md r hv
  rw [he] at hm
  cases hm
  have hsfx : sfx = "-tac" ∨ sfx = "-mc" := by
    rcases (typeSuffix_ok_iff _ _).mp hs with ⟨_, h⟩ | ⟨_, h⟩
    · exact Or.inl h
    · exact Or.inr h
  have hb : Markup.nodesList (responseBody md r os)
      = ("p", []) :: (((os.filter fun o => truthyStr o.content).map fun _ =>
            ("span", [Attr.quoted "data-role" "option"]))
          ++ ((os.filter fun o => truthyStr o.rationale).map fun _ =>
            ("div", [Attr.quoted "data-role" "rationale"]))) := by
    unfold responseBody
    rw [nodesList_append, nodesList_append, filterMap_optionContentTemplate,
      filterMap_rationaleTemplate, nodesList_map_leaf, nodesList_map_leaf]
    rfl
  intro n hn
  simp only [Markup.nodes, hb, List.mem_cons, List.mem_append, List.mem_map] at hn
  rcases hn with rfl | rfl | ⟨_, _, rfl⟩ | ⟨_, _, rfl⟩
  · exact hP.response sfx _ _ _ hsfx
  · exact hP.para
  · exact hP.option
  · exact hP.rationale

theorem arrayMap_responseTemplate_nodes (md : Markdown) (P : String × List Attr → Prop)
    (hP : InnerShapes P) (cs : List Response) (ms : List Markup)
    (h : arrayMap (responseTemplate md) cs = .ok ms) : ∀ n ∈ Markup.nodesList ms, P n := by
  rw [arrayMap_ok_iff] at h
  induction h with
  | nil => intro n hn; cases hn
  | cons h1 _ ih =>
    intro n hn
    simp only [Markup.nodesList, List.mem_append] at hn
    rcases hn with hn | hn
    · exact responseTemplate_nodes md P hP _ _ h1 n hn
    · exact ih n hn

theorem questionTemplate_nodes (md : Markdown) (P : String × List Attr → Prop)
    (hP : InnerShapes P) (q : Question) (qm : Markup) (h : questionTemplate md q = .ok qm) :
    ∃ rest, qm.nodes = ("web-question", []) :: rest ∧ ∀ n ∈ rest, P n := by
  unfold questionTemplate at h
  dsimp only at h
  cases hr : responsesTemplate md q with
  | error e => rw [hr] at h; cases h
  | ok ms =>
    rw [hr] at h
    cases h
    refine ⟨_, rfl, ?_⟩
    have hms : ∀ n ∈ Markup.nodesList ms, P n := by
      unfold responsesTemplate at hr
      cases hc : q.components with
      | none =>
        rw [hc] at hr
        dsimp only at hr
        cases hq : responseTemplate md q.toResponse with
        | error e => rw [hq] at hr; cases hr
        | ok m =>
          rw [hq] at hr
          cases hr
          intro n hn
          simp only [Markup.nodesList, List.append_nil] at hn
          exact responseTemplate_nodes md P hP _ _ hq n hn
      | some cs =>
        rw [hc] at hr
        exact arrayMap_responseTemplate_nodes md P hP cs ms hr
    intro n hn
    rw [nodesList_append] at hn
    rcases List.mem_append.mp hn with hn | hn
    · split at hn
      · simp only [Markup.nodesList, Markup.nodes, List.append_nil, List.mem_singleton] at hn
        rw [hn]
        exact hP.stimulus
      · cases hn
    · exact hms n hn

theorem questionTemplate_countP (md : Markdown) (p : String × List Attr → Bool)
    (hp : InnerShapes fun n => p n = false) (q : Question) (qm : Markup)
    (h : questionTemplate md q = .ok qm) :
    qm.nodes.countP p = if p ("web-question", []) then 1 else 0 := by
  obtain ⟨rest, hn, hrest⟩ := questionTemplate_nodes md _ hp q qm h
  have h0 : rest.countP p = 0 := by
    rw [List.countP_eq_zero]
    intro n hn2
    simp [hrest n hn2]
  rw [hn, List.countP_cons, h0]
  simp

theorem arrayMap_questionTemplate_countP (md : Markdown) (p : String × List Attr → Bool)
    (hp : InnerShapes fun n => p n = false) (qs : List Question) (qms : List Markup)
    (h : arrayMap (questionTemplate md) qs = .ok qms) :
    (Markup.nodesList qms).countP p
      = qs.length * (if p ("web-question", []) then 1 else 0) := by
  rw [arrayMap_ok_iff] at h
  induction h with
  | nil => simp [Markup.nodesList]
  | cons h1 _ ih =>
    simp only [Markup.nodesList, List.countP_append, ih, List.length_cons,
      questionTemplate_countP md p hp _ _ h1]
    ring

theorem arrayMap_tabTemplate_countP (md : Markdown) (p : String × List Attr → Bool)
    (hp : InnerShapes fun n => p n = false) (a : AssessmentData) (qs : List Question)
    (tabs : List Markup) (h : arrayMap (fun q => tabTemplate md q a) qs = .ok tabs) :
    (Markup.nodesList tabs).countP p
      = qs.length * ((if p ("div", panelAttrs a) then 1 else 0)
          + (if p ("web-question", []) then 1 else 0)) := by
  rw [arrayMap_ok_iff] at h
  induction h with
  | nil => simp [Markup.nodesList]
  | @cons q t qs ts h1 _ ih =>
    unfold tabTemplate at h1
    cases hq : questionTemplate md q with
    | error e => rw [hq] at h1; cases h1
    | ok qm =>
      rw [hq] at h1
      cases h1
      simp only [Markup.nodesList, Markup.nodes, List.countP_append, ih, List.length_cons,
        List.countP_cons, List.append_nil, questionTemplate_countP md p hp _ _ hq, panelAttrs]
      ring

/-! ## Valid input is rendered -/

theorem questionTemplate_of_valid (md : Markdown) (q : Question) (h : q.valid = true) :
    succeeds (questionTemplate md q) = true := by
  unfold Question.valid at h
  unfold questionTemplate responsesTemplate
  cases hc : q.components with
  | none =>
    rw [hc] at h
    obtain ⟨_, _, _, _, he⟩ := responseTemplate_of_valid md q.toResponse h
    simp [he, succeeds]
  | some cs =>
    rw [hc] at h
    obtain ⟨ms, hms, _, _⟩ := arrayMap_of_forall_ok (responseTemplate md) cs
      (fun c hcm => by
        rw [succeeds_responseTemplate]
        exact List.all_eq_true.mp h c hcm)
    simp [hms, succeeds]

theorem tabTemplate_of_valid (md : Markdown) (a : AssessmentData) (q : Question)
    (h : q.valid = true) : succeeds (tabTemplate md q a) = true := by
  have := questionTemplate_of_valid md q h
  unfold tabTemplate
  cases hq : questionTemplate md q with
  | error e => rw [hq] at this; cases this
  | ok qm => rfl

theorem tabTemplate_ok (md : Markdown) (a : AssessmentData) (q : Question) (t : Markup)
    (h : tabTemplate md q a = .ok t) :
    ∃ qm, questionTemplate md q = .ok qm ∧ qm.openTag = some "web-question"
      ∧ t = .element "div" (panelAttrs a) [qm] "div" := by
  unfold tabTemplate at h
  cases hq : questionTemplate md q with
  | error e => rw [hq] at h; cases h
  | ok qm =>
    rw [hq] at h
    cases h
    refine ⟨qm, rfl, ?_, rfl⟩
    unfold questionTemplate at hq
    dsimp only at hq
    cases hr : responsesTemplate md q with
    | error e => rw [hr] at hq; cases hq
    | ok ms => rw [hr] at hq; cases hq; rfl

theorem moduleExports_eq (md : Markdown) (require : String → Option AssessmentData)
    (p : Page) (t : String) (a : AssessmentData) (ht : t ≠ "")
    (hr : require (assessmentPath p.filePathStem t) = some a) :
    moduleExports md require (some p) (some t) =
      match contentTemplate md a with
      | .error e => .error e
      | .ok content =>
        .ok (.element "web-assessment" (rootAttrs a)
          ((headerTemplate a).toList ++ [content]) "web-assessment") := by
  have htt : truthyStr (some t) = true := by simp [truthyStr, ht]
  unfold moduleExports
  simp only [htt, Bool.not_true, Bool.false_eq_true, if_false, printed, hr]
  rfl

theorem contentTemplate_of_valid (md : Markdown) (a : AssessmentData) (hv : a.valid = true) :
    succeeds (contentTemplate md a) = true := by
  unfold AssessmentData.valid at hv
  have hq : ∀ q ∈ a.questions, q.valid = true := List.all_eq_true.mp hv
  unfold contentTemplate
  split
  · obtain ⟨ms, hms, _, _⟩ := arrayMap_of_forall_ok (fun q => tabTemplate md q a) a.questions
      (fun q hqm => tabTemplate_of_valid md a q (hq q hqm))
    simp [hms, succeeds]
  · obtain ⟨ms, hms, _, _⟩ := arrayMap_of_forall_ok (questionTemplate md) a.questions
      (fun q hqm => questionTemplate_of_valid md q (hq q hqm))
    simp [hms, succeeds]

theorem innerShapes_hasClass (c : String) (hc : c ≠ "web-response") :
    InnerShapes fun n => hasClass c n.2 = false := by
  have hd : ("data-role" == "class") = false := by decide
  have ht : classTokens "web-response" = ["web-response"] := by decide
  refine ⟨rfl, ?_, ?_, ?_, ?_⟩
  · simp [hasClass, hd]
  · simp [hasClass, hd]
  · simp [hasClass, hd]
  · intro sfx x y z _
    simp [hasClass, ht]
    exact hc

theorem innerShapes_tag (t : String) (h1 : t ≠ "p") (h2 : t ≠ "span") (h3 : t ≠ "div")
    (h4 : t ≠ "web-response-tac") (h5 : t ≠ "web-response-mc") :
    InnerShapes fun n => (n.1 == t) = false := by
  refine ⟨?_, ?_, ?_, ?_, ?_⟩
  · simpa using Ne.symm h1
  · simpa using Ne.symm h2
  · simpa using Ne.symm h3
  · simpa using Ne.symm h3
  · intro sfx x y z hs
    have e1 : "web-response" ++ "-tac" = "web-response-tac" := by decide
    have e2 : "web-response" ++ "-mc" = "web-response-mc" := by decide
    rcases hs with rfl | rfl
    · simpa [e1] using Ne.symm h4
    · simpa [e2] using Ne.symm h5

theorem hasClass_panelAttrs (c : String) (a : AssessmentData) :
    hasClass c (panelAttrs a) = decide (c = "web-tabs__panel") := by
  have h1 : ("role" == "class") = false := by decide
  have h2 : ("data-label" == "class") = false := by decide
  have ht : classTokens "web-tabs__panel" = ["web-tabs__panel"] := by decide
  simp [hasClass, panelAttrs, h1, h2, ht]

theorem hasClass_tabsAttrs (c : String) (a : AssessmentData) :
    hasClass c (tabsAttrs a) = decide (c = "web-assessment__content") := by
  have h1 : ("label" == "class") = false := by decide
  have ht : classTokens "web-assessment__content" = ["web-assessment__content"] := by decide
  simp [hasClass, tabsAttrs, h1, ht]

theorem hasClass_rootAttrs (c : String) (a : AssessmentData) :
    hasClass c (rootAttrs a)
      = if a.questions.length = 1 then
          decide (c = "w-callout" ∨ c = "web-assessment--singleton")
        else decide (c = "w-callout") := by
  have h1 : ("aria-label" == "class") = false := by decide
  have e1 : classTokens "w-callout web-assessment--singleton"
      = ["w-callout", "web-assessment--singleton"] := by decide
  have e2 : classTokens "w-callout " = ["w-callout"] := by decide
  by_cases h : a.questions.length = 1
  · simp [hasClass, rootAttrs, h1, h, e1]
  · simp [hasClass, rootAttrs, h1, h, e2]

theorem contentTemplate_countP (md : Markdown) (p : String × List Attr → Bool)
    (hp : InnerShapes fun n => p n = false) (a : AssessmentData) (c : Markup)
    (h : contentTemplate md a = .ok c) :
    c.nodes.countP p =
      if 1 < a.questions.length then
        (if p ("web-tabs", tabsAttrs a) then 1 else 0)
          + a.questions.length * ((if p ("div", panelAttrs a) then 1 else 0)
              + (if p ("web-question", []) then 1 else 0))
      else
        (if p ("div", [.quoted "class" "web-assessment__content"]) then 1 else 0)
          + a.questions.length * (if p ("web-question", []) then 1 else 0) := by
  unfold contentTemplate at h
  by_cases hl : 1 < a.questions.length
  · simp only [gt_iff_lt, hl, if_true] at h ⊢
    cases ht : arrayMap (fun q => tabTemplate md q a) a.questions with
    | error e => rw [ht] at h; cases h
    | ok tabs =>
      rw [ht] at h
      cases h
      simp only [Markup.nodes, List.countP_cons,
        arrayMap_tabTemplate_countP md p hp a _ _ ht, tabsAttrs]
      ring
  · simp only [gt_iff_lt, hl, if_false] at h ⊢
    cases hq : arrayMap (questionTemplate md) a.questions with
    | error e => rw [hq] at h; cases h
    | ok qms =>
      rw [hq] at h
      cases h
      simp only [Markup.nodes, List.countP_cons,
        arrayMap_questionTemplate_countP md p hp _ _ hq]
      ring

/-! ## The replacement of a trailing `index` -/

theorem stripIndexChars_append (q : List Char) :
    stripIndexChars (q ++ "index".data) = q := by
  have hs : "index".data.isSuffixOf (q ++ "index".data) = true :=
    List.isSuffixOf_iff_suffix.mpr (List.suffix_append _ _)
  have hl : ("index".data).length = 5 := by decide
  unfold stripIndexChars
  rw [if_pos hs, List.length_append, hl, Nat.add_sub_cancel, List.take_left']
  rfl

theorem stripIndexChars_of_not_suffix (s : List Char)
    (h : ∀ q, s ≠ q ++ "index".data) : stripIndexChars s = s := by
  unfold stripIndexChars
  split
  · rename_i hs
    obtain ⟨q, hq⟩ := List.isSuffixOf_iff_suffix.mp hs
    exact absurd hq.symm (h q)
  · rfl

/-! ## The claims on `responseTemplate` -/

/-- C1: the cardinality `10-12` has the form `n-m` of the specification, but
`responseTemplate` raises the cardinality error on an otherwise valid response that
carries it, because the third pattern admits a single digit before the dash; the six
values the specification lists behave as it says. -/
theorem cardinality_two_digit_lower_bound_rejected (md : Markdown) :
    specCardinality "10-12".data = true
      ∧ responseTemplate md
          ⟨.str "multiple-choice", some "10-12", none, .undefined, "2+2=?", some []⟩
        = .error .cardinality
      ∧ (∀ c ∈ ["2", "3+", "1-4"],
          specCardinality c.data = true ∧
          succeeds (responseTemplate md
            ⟨.str "multiple-choice", some c, none, .undefined, "2+2=?", some []⟩) = true)
      ∧ (∀ c ∈ ["abc", "+3", "4-"],
          specCardinality c.data = false ∧
          responseTemplate md
            ⟨.str "multiple-choice", some c, none, .undefined, "2+2=?", some []⟩
          = .error .cardinality) := by
  refine ⟨by decide, rfl, ?_, ?_⟩
  · intro c hc
    simp only [List.mem_cons, List.mem_singleton, List.not_mem_nil, or_false] at hc
    rcases hc with rfl | rfl | rfl <;> exact ⟨by decide, rfl⟩
  · intro c hc
    simp only [List.mem_cons, List.mem_singleton, List.not_mem_nil, or_false] at hc
    rcases hc with rfl | rfl | rfl <;> exact ⟨by decide, rfl⟩

/-- C2: `10` is a comma-separated list of positive integers, but `responseTemplate`
raises the correctAnswers error on it, and `0` is not one, but is accepted: the
pattern admits exactly single digits, zero included; the three values the
specification lists behave as it says. -/
theorem correctAnswers_single_digits_only (md : Markdown) :
    (specCorrectAnswers "10".data = true
        ∧ responseTemplate md
            ⟨.str "multiple-choice", none, some "10", .undefined, "2+2=?", some []⟩
          = .error .correctAnswers)
      ∧ (specCorrectAnswers "0".data = false
        ∧ succeeds (responseTemplate md
            ⟨.str "multiple-choice", none, some "0", .undefined, "2+2=?", some []⟩) = true)
      ∧ (specCorrectAnswers "1,3,4".data = true
        ∧ succeeds (responseTemplate md
            ⟨.str "multiple-choice", none, some "1,3,4", .undefined, "2+2=?", some []⟩) = true)
      ∧ (∀ a ∈ ["1,,2", "a,b"],
          specCorrectAnswers a.data = false ∧
          responseTemplate md
            ⟨.str "multiple-choice", none, some a, .undefined, "2+2=?", some []⟩
          = .error .correctAnswers) := by
  refine ⟨⟨by decide, rfl⟩, ⟨by decide, rfl⟩, ⟨by decide, rfl⟩, ?_⟩
  intro a ha
  simp only [List.mem_cons, List.mem_singleton, List.not_mem_nil, or_false] at ha
  rcases ha with rfl | rfl <;> exact ⟨by decide, rfl⟩

/-- C3: a response whose `columns` is the number `1`, the string `"1"` or the string
`"0"` is not a boolean, but `responseTemplate` returns its markup (with the
`columns` attribute) instead of raising the columns error, because the comparison
with `true` and `false` is the loose one; the string `"true"` is rejected. -/
theorem columns_loose_comparison_accepts_non_booleans (md : Markdown) :
    responseTemplate md ⟨.str "multiple-choice", none, none, .num 1, "2+2=?", some []⟩
        = .ok (.element "web-response-mc"
            [.bare "", .bare "", .bare "columns", .quoted "class" "web-response"]
            [.element "p" [] [.raw (md.renderInline "2+2=?")] "p"] "web-response-mc")
      ∧ succeeds (responseTemplate md
          ⟨.str "multiple-choice", none, none, .str "1", "2+2=?", some []⟩) = true
      ∧ succeeds (responseTemplate md
          ⟨.str "multiple-choice", none, none, .str "0", "2+2=?", some []⟩) = true
      ∧ responseTemplate md ⟨.str "multiple-choice", none, none, .str "true", "2+2=?", some []⟩
        = .error .columns
      ∧ (∀ b, succeeds (responseTemplate md
          ⟨.str "multiple-choice", none, none, .bool b, "2+2=?", some []⟩) = true) := by
  refine ⟨rfl, rfl, rfl, rfl, ?_⟩
  intro b
  cases b <;> rfl

/-- C4: a response whose `type` is falsy raises the missing-type error, a response
whose `type` is any value other than the two recognized strings raises an error, so
neither yields markup; and when `responseTemplate` returns markup for a recognized
type, as it does for every valid response, the opening and the closing tag both
carry the suffix of that type, `-tac` for `think-and-check` and `-mc` for
`multiple-choice`. -/
theorem response_type_checked_and_tagged (md : Markdown) (r : Response) :
    (r.type.truthy = false → responseTemplate md r = .error .missingType)
      ∧ (r.type ≠ .str "think-and-check" → r.type ≠ .str "multiple-choice" →
          ∃ e, responseTemplate md r = .error e)
      ∧ (r.type = .str "think-and-check" → ∀ m, responseTemplate md r = .ok m →
          m.openTag = some "web-response-tac" ∧ m.closeTag = some "web-response-tac")
      ∧ (r.type = .str "multiple-choice" → ∀ m, responseTemplate md r = .ok m →
          m.openTag = some "web-response-mc" ∧ m.closeTag = some "web-response-mc")
      ∧ (r.valid = true → ∃ m, responseTemplate md r = .ok m) := by
  have key : ∀ m, responseTemplate md r = .ok m → ∃ sfx, typeSuffix r.type = .ok sfx ∧
      m.openTag = some ("web-response" ++ sfx) ∧ m.closeTag = some ("web-response" ++ sfx) := by
    intro m hm
    have hv : r.valid = true := by
      rw [← succeeds_responseTemplate md r, hm]; rfl
    obtain ⟨sfx, os, hs, _, he⟩ := responseTemplate_of_valid md r hv
    rw [he] at hm
    cases hm
    exact ⟨sfx, hs, rfl, rfl⟩
  refine ⟨?_, ?_, ?_, ?_, ?_⟩
  rotate_right
  · intro hv
    obtain ⟨sfx, os, _, _, he⟩ := responseTemplate_of_valid md r hv
    exact ⟨_, he⟩
  · intro h
    simp [responseTemplate, h]
  · intro h1 h2
    apply responseTemplate_of_not_valid
    cases hv : r.valid
    · rfl
    · exfalso
      obtain ⟨sfx, os, hs, _, _⟩ := responseTemplate_of_valid md r hv
      rcases (typeSuffix_ok_iff _ _).mp hs with ⟨ht, _⟩ | ⟨ht, _⟩
      · exact h1 ht
      · exact h2 ht
  · intro ht m hm
    obtain ⟨sfx, hs, ho, hc⟩ := key m hm
    rcases (typeSuffix_ok_iff _ _).mp hs with ⟨_, rfl⟩ | ⟨ht2, _⟩
    · exact ⟨ho, hc⟩
    · rw [ht] at ht2; exact absurd ht2 (by decide)
  · intro ht m hm
    obtain ⟨sfx, hs, ho, hc⟩ := key m hm
    rcases (typeSuffix_ok_iff _ _).mp hs with ⟨ht2, _⟩ | ⟨_, rfl⟩
    · rw [ht] at ht2; exact absurd ht2 (by decide)
    · exact ⟨ho, hc⟩

/-- Witness of C4 on a response without a type, one with the type `essay`, and one
valid response of each recognized type. -/
theorem response_type_checked_and_tagged_witness :
    responseTemplate ⟨id, id, id⟩ ⟨.undefined, some "x", none, .num 7, "s", none⟩
        = .error .missingType
      ∧ (∃ e, responseTemplate ⟨id, id, id⟩ ⟨.str "essay", none, none, .undefined, "s", some []⟩
          = .error e)
      ∧ ((Markup.element "web-response-tac"
            [.bare "", .bare "", .bare "", .quoted "class" "web-response"]
            [.element "p" [] [.raw "s"] "p"] "web-response-tac").openTag = some "web-response-tac"
          ∧ (Markup.element "web-response-tac"
            [.bare "", .bare "", .bare "", .quoted "class" "web-response"]
            [.element "p" [] [.raw "s"] "p"] "web-response-tac").closeTag = some "web-response-tac")
      ∧ ((Markup.element "web-response-mc"
            [.bare "cardinality=1", .bare "", .bare "", .quoted "class" "web-response"]
            [.element "p" [] [.raw "s"] "p"] "web-response-mc").openTag = some "web-response-mc"
          ∧ (Markup.element "web-response-mc"
            [.bare "cardinality=1", .bare "", .bare "", .quoted "class" "web-response"]
            [.element "p" [] [.raw "s"] "p"] "web-response-mc").closeTag = some "web-response-mc")
      ∧ (∃ m, responseTemplate ⟨id, id, id⟩
          ⟨.str "multiple-choice", some "1", none, .undefined, "s", some []⟩ = .ok m) :=
  ⟨(response_type_checked_and_tagged ⟨id, id, id⟩
      ⟨.undefined, some "x", none, .num 7, "s", none⟩).1 rfl,
    (response_type_checked_and_tagged ⟨id, id, id⟩
      ⟨.str "essay", none, none, .undefined, "s", some []⟩).2.1 (by decide) (by decide),
    (response_type_checked_and_tagged ⟨id, id, id⟩
      ⟨.str "think-and-check", none, none, .undefined, "s", some []⟩).2.2.1 rfl _ rfl,
    (response_type_checked_and_tagged ⟨id, id, id⟩
      ⟨.str "multiple-choice", some "1", none, .undefined, "s", some []⟩).2.2.2.1 rfl _ rfl,
    (response_type_checked_and_tagged ⟨id, id, id⟩
      ⟨.str "multiple-choice", some "1", none, .undefined, "s", some []⟩).2.2.2.2 rfl⟩

/-- C8: the body of a valid response with options `os` is the stem paragraph, then
the content fragments of exactly the options of `os` with a content, in order, then
the rationale fragments of exactly the options of `os` with a rationale, in order;
so the content pass is complete before the rationale pass starts, and each pass holds
one fragment per option that has the field. -/
theorem response_body_two_passes (md : Markdown) (r : Response) (os : List AnswerOption)
    (hv : r.valid = true) (ho : r.options = some os) :
    ∃ m, responseTemplate md r = .ok m
      ∧ m.children =
          Markup.element "p" [] [.raw (md.renderInline r.stem)] "p"
            :: (((os.filter fun o => truthyStr o.content).map fun o =>
                  Markup.element "span" [.quoted "data-role" "option"]
                    [.raw (md.renderInline (printed o.content))] "span")
                ++ ((os.filter fun o => truthyStr o.rationale).map fun o =>
                  Markup.element "div" [.quoted "data-role" "rationale"]
                    [.raw (md.render (printed o.rationale))] "div"))
      ∧ m.children.length
          = 1 + os.countP (fun o => truthyStr o.content)
              + os.countP (fun o => truthyStr o.rationale) := by
  obtain ⟨sfx, os2, _, ho2, he⟩ := responseTemplate_of_valid md r hv
  rw [ho] at ho2
  cases ho2
  refine ⟨_, he, ?_, ?_⟩
  · simp only [Markup.children, responseBody, filterMap_optionContentTemplate,
      filterMap_rationaleTemplate, List.singleton_append, List.cons_append, List.nil_append,
      List.append_assoc]
  · simp only [Markup.children, responseBody, filterMap_optionContentTemplate,
      filterMap_rationaleTemplate, List.length_append, List.length_map, List.length_cons,
      List.length_nil, List.countP_eq_length_filter]

/-- Witness of C8 on the example of the specification: contents `4` and `5`, and the
one rationale `Correct`. -/
theorem response_body_two_passes_witness :
    ∃ m, responseTemplate ⟨id, id, id⟩
          ⟨.str "multiple-choice", none, none, .undefined, "2+2=?",
            some [⟨some "4", some "Correct"⟩, ⟨some "5", none⟩]⟩ = .ok m
      ∧ m.children =
          [.element "p" [] [.raw "2+2=?"] "p",
            .element "span" [.quoted "data-role" "option"] [.raw "4"] "span",
            .element "span" [.quoted "data-role" "option"] [.raw "5"] "span",
            .element "div" [.quoted "data-role" "rationale"] [.raw "Correct"] "div"]
      ∧ m.children.length = 4 :=
  response_body_two_passes ⟨id, id, id⟩
    ⟨.str "multiple-choice", none, none, .undefined, "2+2=?",
      some [⟨some "4", some "Correct"⟩, ⟨some "5", none⟩]⟩
    [⟨some "4", some "Correct"⟩, ⟨some "5", none⟩] rfl rfl

/-! ## The claims on the questions -/

/-- C10: a question without a components list is rendered as its own sole response:
after the optional stimulus block its markup holds exactly the markup of
`responseTemplate` on the question itself, and it fails with the same error when that
call fails; a question with the components list `cs` holds the markup of
`responseTemplate` on each element of `cs`, in order and as many as `cs` has elements,
when all are valid, and fails with the error of the first element that fails. -/
theorem question_renders_its_responses (md : Markdown) (q : Question) :
    (q.components = none →
        (∀ m, responseTemplate md q.toResponse = .ok m →
          questionTemplate md q
            = .ok (.element "web-question" [] (stimulusBlock md q ++ [m]) "web-question"))
        ∧ (∀ e, responseTemplate md q.toResponse = .error e → questionTemplate md q = .error e))
      ∧ (∀ cs, q.components = some cs →
        ((∀ c ∈ cs, c.valid = true) →
          ∃ ms, List.Forall₂ (fun c m => responseTemplate md c = .ok m) cs ms
            ∧ ms.length = cs.length
            ∧ questionTemplate md q
              = .ok (.element "web-question" [] (stimulusBlock md q ++ ms) "web-question"))
        ∧ (∀ pre c post e, cs = pre ++ c :: post → (∀ x ∈ pre, x.valid = true) →
            responseTemplate md c = .error e → questionTemplate md q = .error e)) := by
  refine ⟨?_, ?_⟩
  · intro hc
    refine ⟨?_, ?_⟩
    · intro m hm
      simp [questionTemplate, responsesTemplate, hc, hm, stimulusBlock]
    · intro e he
      simp [questionTemplate, responsesTemplate, hc, he]
  · intro cs hc
    refine ⟨?_, ?_⟩
    · intro hall
      obtain ⟨ms, hms, hf, hlen⟩ := arrayMap_of_forall_ok (responseTemplate md) cs
        (fun c hcm => by rw [succeeds_responseTemplate]; exact hall c hcm)
      refine ⟨ms, hf, hlen, ?_⟩
      simp [questionTemplate, responsesTemplate, hc, hms, stimulusBlock]
    · intro pre c post e hcs hpre he
      have := arrayMap_first_error (responseTemplate md) pre c post e
        (fun x hx => by rw [succeeds_responseTemplate]; exact hpre x hx) he
      simp [questionTemplate, responsesTemplate, hc, hcs, this]

/-- Witness of C10: a question that is its own response, one that fails as such, a
question with two valid components, and one whose second component is the first
invalid one. -/
theorem question_renders_its_responses_witness :
    questionTemplate ⟨id, id, id⟩
        ⟨⟨.str "think-and-check", none, none, .undefined, "s", some []⟩, some "st", none⟩
      = .ok (.element "web-question" []
          [.element "div" [.quoted "data-role" "stimulus"] [.raw "st"] "div",
            .element "web-response-tac"
              [.bare "", .bare "", .bare "", .quoted "class" "web-response"]
              [.element "p" [] [.raw "s"] "p"] "web-response-tac"] "web-question")
    ∧ questionTemplate ⟨id, id, id⟩
        ⟨⟨.undefined, none, none, .undefined, "s", some []⟩, none, none⟩ = .error .missingType
    ∧ (∃ ms, List.Forall₂ (fun c m => responseTemplate ⟨id, id, id⟩ c = .ok m)
          [⟨.str "think-and-check", none, none, .undefined, "a", some []⟩,
            ⟨.str "multiple-choice", none, none, .undefined, "b", some []⟩] ms
        ∧ ms.length = 2
        ∧ questionTemplate ⟨id, id, id⟩
            ⟨⟨.undefined, none, none, .undefined, "", none⟩, none,
              some [⟨.str "think-and-check", none, none, .undefined, "a", some []⟩,
                ⟨.str "multiple-choice", none, none, .undefined, "b", some []⟩]⟩
          = .ok (.element "web-question" [] ([] ++ ms) "web-question"))
    ∧ questionTemplate ⟨id, id, id⟩
        ⟨⟨.undefined, none, none, .undefined, "", none⟩, none,
          some [⟨.str "think-and-check", none, none, .undefined, "a", some []⟩,
            ⟨.str "multiple-choice", some "x", none, .undefined, "b", some []⟩,
            ⟨.undefined, none, none, .undefined, "c", some []⟩]⟩
      = .error .cardinality :=
  ⟨((question_renders_its_responses ⟨id, id, id⟩
      ⟨⟨.str "think-and-check", none, none, .undefined, "s", some []⟩, some "st", none⟩).1
        rfl).1 _ rfl,
    ((question_renders_its_responses ⟨id, id, id⟩
      ⟨⟨.undefined, none, none, .undefined, "s", some []⟩, none, none⟩).1 rfl).2 _ rfl,
    ((question_renders_its_responses ⟨id, id, id⟩
      ⟨⟨.undefined, none, none, .undefined, "", none⟩, none,
        some [⟨.str "think-and-check", none, none, .undefined, "a", some []⟩,
          ⟨.str "multiple-choice", none, none, .undefined, "b", some []⟩]⟩).2 _ rfl).1
      (by decide),
    ((question_renders_its_responses ⟨id, id, id⟩
      ⟨⟨.undefined, none, none, .undefined, "", none⟩, none,
        some [⟨.str "think-and-check", none, none, .undefined, "a", some []⟩,
          ⟨.str "multiple-choice", some "x", none, .undefined, "b", some []⟩,
          ⟨.undefined, none, none, .undefined, "c", some []⟩]⟩).2 _ rfl).2
      [⟨.str "think-and-check", none, none, .undefined, "a", some []⟩]
      ⟨.str "multiple-choice", some "x", none, .undefined, "b", some []⟩
      [⟨.undefined, none, none, .undefined, "c", some []⟩] .cardinality rfl (by decide) rfl⟩

/-! ## The claims on the assessment -/

/-- C5: on an assessment whose responses are all valid the renderer returns markup
in which the number of elements of class `web-assessment__set-leader` is one when
`setLeader` is set (non-empty) and there is more than one question, and zero
otherwise, so the banner is there if and only if both hold; when it is there it is
the first child of the root and carries the `setLeader` text. -/
theorem set_leader_banner_iff (md : Markdown) (require : String → Option AssessmentData)
    (p : Page) (t : String) (a : AssessmentData) (ht : t ≠ "")
    (hr : require (assessmentPath p.filePathStem t) = some a) (hv : a.valid = true) :
    ∃ m, moduleExports md require (some p) (some t) = .ok m
      ∧ m.nodes.countP (fun n => hasClass "web-assessment__set-leader" n.2)
          = (if truthyStr a.setLeader = true ∧ 1 < a.questions.length then 1 else 0)
      ∧ ((∃ n ∈ m.nodes, hasClass "web-assessment__set-leader" n.2 = true)
          ↔ (truthyStr a.setLeader = true ∧ 1 < a.questions.length))
      ∧ (truthyStr a.setLeader = true → 1 < a.questions.length →
          m.children.head? = some (.element "div"
            [.quoted "class" "w-callout__blurb web-assessment__set-leader"]
            [.raw (printed a.setLeader)] "div")) := by
  have hc := contentTemplate_of_valid md a hv
  have hm := moduleExports_eq md require p t a ht hr
  cases hct : contentTemplate md a with
  | error e => rw [hct] at hc; cases hc
  | ok content =>
    rw [hct] at hm
    have hcount := contentTemplate_countP md
      (fun n => hasClass "web-assessment__set-leader" n.2)
      (innerShapes_hasClass _ (by decide)) a content hct
    have hcontent : content.nodes.countP (fun n => hasClass "web-assessment__set-leader" n.2)
        = 0 := by
      rw [hcount]
      have e0 : hasClass "web-assessment__set-leader" [] = false := rfl
      have e1 : hasClass "web-assessment__set-leader"
          [.quoted "class" "web-assessment__content"] = false := by decide
      simp [hasClass_tabsAttrs, hasClass_panelAttrs, e0, e1]
    have hroot : hasClass "web-assessment__set-leader" (rootAttrs a) = false := by
      rw [hasClass_rootAttrs]
      split <;> decide
    have hbanner : hasClass "web-assessment__set-leader"
        [.quoted "class" "w-callout__blurb web-assessment__set-leader"] = true := by decide
    have hcnt : (Markup.element "web-assessment" (rootAttrs a)
          ((headerTemplate a).toList ++ [content]) "web-assessment").nodes.countP
            (fun n => hasClass "web-assessment__set-leader" n.2)
        = (if truthyStr a.setLeader = true ∧ 1 < a.questions.length then 1 else 0) := by
      unfold headerTemplate
      by_cases hcond : truthyStr a.setLeader = true ∧ 1 < a.questions.length
      · simp [hcond, Markup.nodes, Markup.nodesList, List.countP_cons, List.countP_append,
          hroot, hbanner, hcontent]
      · have hb : (truthyStr a.setLeader && decide (a.questions.length > 1)) = false := by
          simpa using hcond
        simp only [hb, hcond, if_false, Bool.false_eq_true]
        simp [Markup.nodes, Markup.nodesList, List.countP_cons, List.countP_append,
          hroot, hcontent]
    refine ⟨_, hm, hcnt, ?_, ?_⟩
    · rw [← List.countP_pos_iff, hcnt]
      by_cases hcond : truthyStr a.setLeader = true ∧ 1 < a.questions.length
      · simp [hcond]
      · simp [hcond]
    · intro h1 h2
      simp [Markup.children, headerTemplate, h1, h2]

/-- Witness of C5 on an assessment with two valid questions and a set leader. -/
theorem set_leader_banner_iff_witness :
    ∃ m, moduleExports ⟨id, id, id⟩
          (fun _ => some ⟨some "Leader", some "Sample", none,
            [⟨⟨.str "think-and-check", none, none, .undefined, "a", some []⟩, none, none⟩,
              ⟨⟨.str "multiple-choice", none, none, .undefined, "b", some []⟩, none, none⟩]⟩)
          (some ⟨"/learn/index"⟩) (some "quiz") = .ok m
      ∧ m.nodes.countP (fun n => hasClass "web-assessment__set-leader" n.2)
          = (if truthyStr (some "Leader") = true ∧ 1 < 2 then 1 else 0)
      ∧ ((∃ n ∈ m.nodes, hasClass "web-assessment__set-leader" n.2 = true)
          ↔ (truthyStr (some "Leader") = true ∧ 1 < 2))
      ∧ (truthyStr (some "Leader") = true → 1 < 2 →
          m.children.head? = some (.element "div"
            [.quoted "class" "w-callout__blurb web-assessment__set-leader"]
            [.raw "Leader"] "div")) :=
  set_leader_banner_iff ⟨id, id, id⟩
    (fun _ => some ⟨some "Leader", some "Sample", none,
      [⟨⟨.str "think-and-check", none, none, .undefined, "a", some []⟩, none, none⟩,
        ⟨⟨.str "multiple-choice", none, none, .undefined, "b", some []⟩, none, none⟩]⟩)
    ⟨"/learn/index"⟩ "quiz" _ (by decide) rfl (by decide)

/-- C6: for an assessment with exactly one question, a valid one, the renderer returns
a root element of class `web-assessment--singleton` whose only child is a plain
content `div` wrapping the rendered question, and no element of the markup is a
`web-tabs` container or has the class `web-tabs__panel`; for a valid assessment
whose question count is not one the root does not have the class
`web-assessment--singleton`. -/
theorem singleton_layout (md : Markdown) (require : String → Option AssessmentData)
    (p : Page) (t : String) (a : AssessmentData) (ht : t ≠ "")
    (hr : require (assessmentPath p.filePathStem t) = some a) (hv : a.valid = true) :
    (∀ q, a.questions = [q] →
        ∃ qm m, questionTemplate md q = .ok qm
          ∧ moduleExports md require (some p) (some t) = .ok m
          ∧ m.children = [.element "div" [.quoted "class" "web-assessment__content"] [qm] "div"]
          ∧ m.openTag = some "web-assessment"
          ∧ hasClass "web-assessment--singleton" m.attrs = true
          ∧ m.nodes.countP (fun n => n.1 == "web-tabs") = 0
          ∧ m.nodes.countP (fun n => hasClass "web-tabs__panel" n.2) = 0)
      ∧ (a.questions.length ≠ 1 →
        ∃ m, moduleExports md require (some p) (some t) = .ok m
          ∧ m.openTag = some "web-assessment"
          ∧ hasClass "web-assessment--singleton" m.attrs = false) := by
  have hc := contentTemplate_of_valid md a hv
  have hm := moduleExports_eq md require p t a ht hr
  cases hct : contentTemplate md a with
  | error e => rw [hct] at hc; cases hc
  | ok content =>
    rw [hct] at hm
    refine ⟨?_, ?_⟩
    · intro q hq
      have hlen : a.questions.length = 1 := by rw [hq]; rfl
      have hdiv : ∃ qm, questionTemplate md q = .ok qm ∧
          content = .element "div" [.quoted "class" "web-assessment__content"] [qm] "div" := by
        unfold contentTemplate at hct
        rw [hq] at hct
        simp only [List.length_singleton, gt_iff_lt, lt_self_iff_false, if_false, arrayMap]
          at hct
        cases hqt : questionTemplate md q with
        | error e => rw [hqt] at hct; cases hct
        | ok qm => rw [hqt] at hct; cases hct; exact ⟨qm, rfl, rfl⟩
      obtain ⟨qm, hqm, hcontent⟩ := hdiv
      have hh : headerTemplate a = none := by simp [headerTemplate, hlen]
      have c1 := contentTemplate_countP md (fun n => n.1 == "web-tabs")
        (innerShapes_tag _ (by decide) (by decide) (by decide) (by decide) (by decide))
        a content hct
      have c2 := contentTemplate_countP md (fun n => hasClass "web-tabs__panel" n.2)
        (innerShapes_hasClass _ (by decide)) a content hct
      have e0 : hasClass "web-tabs__panel" [] = false := rfl
      have e1 : hasClass "web-tabs__panel"
          [.quoted "class" "web-assessment__content"] = false := by decide
      simp only [hlen, lt_self_iff_false, if_false] at c1 c2
      refine ⟨qm, _, hqm, hm, ?_, rfl, ?_, ?_, ?_⟩
      · simp [Markup.children, hh, hcontent]
      · simp [Markup.attrs, hasClass_rootAttrs, hlen]
      · simp only [Markup.nodes, Markup.nodesList, hh, Option.toList, List.nil_append,
          List.append_nil, List.countP_cons, c1]
        simp
      · simp only [Markup.nodes, Markup.nodesList, hh, Option.toList, List.nil_append,
          List.append_nil, List.countP_cons, c2, hasClass_rootAttrs, hlen, e0, e1]
        simp
    · intro hlen
      refine ⟨_, hm, rfl, ?_⟩
      simp [Markup.attrs, hasClass_rootAttrs, hlen]

/-- Witness of C6 on a one-question assessment, and on a two-question one for the
second part. -/
theorem singleton_layout_witness :
    (∃ qm m, questionTemplate ⟨id, id, id⟩
            ⟨⟨.str "think-and-check", none, none, .undefined, "a", some []⟩, none, none⟩
          = .ok qm
        ∧ moduleExports ⟨id, id, id⟩
            (fun _ => some ⟨some "Leader", none, none,
              [⟨⟨.str "think-and-check", none, none, .undefined, "a", some []⟩, none, none⟩]⟩)
            (some ⟨"/learn/index"⟩) (some "quiz") = .ok m
        ∧ m.children = [.element "div" [.quoted "class" "web-assessment__content"] [qm] "div"]
        ∧ m.openTag = some "web-assessment"
        ∧ hasClass "web-assessment--singleton" m.attrs = true
        ∧ m.nodes.countP (fun n => n.1 == "web-tabs") = 0
        ∧ m.nodes.countP (fun n => hasClass "web-tabs__panel" n.2) = 0)
      ∧ (∃ m, moduleExports ⟨id, id, id⟩
            (fun _ => some ⟨some "Leader", some "Sample", none,
              [⟨⟨.str "think-and-check", none, none, .undefined, "a", some []⟩, none, none⟩,
                ⟨⟨.str "multiple-choice", none, none, .undefined, "b", some []⟩, none, none⟩]⟩)
            (some ⟨"/learn/index"⟩) (some "quiz") = .ok m
        ∧ m.openTag = some "web-assessment"
        ∧ hasClass "web-assessment--singleton" m.attrs = false) :=
  ⟨(singleton_layout ⟨id, id, id⟩
      (fun _ => some ⟨some "Leader", none, none,
        [⟨⟨.str "think-and-check", none, none, .undefined, "a", some []⟩, none, none⟩]⟩)
      ⟨"/learn/index"⟩ "quiz" _ (by decide) rfl (by decide)).1 _ rfl,
    (singleton_layout ⟨id, id, id⟩
      (fun _ => some ⟨some "Leader", some "Sample", none,
        [⟨⟨.str "think-and-check", none, none, .undefined, "a", some []⟩, none, none⟩,
          ⟨⟨.str "multiple-choice", none, none, .undefined, "b", some []⟩, none, none⟩]⟩)
      ⟨"/learn/index"⟩ "quiz" _ (by decide) rfl (by decide)).2 (by decide)⟩

/-- C7: for a valid assessment with more than one question `contentTemplate` returns
one `web-tabs` container whose children are one panel per question, in question
order, each of class `web-tabs__panel` and wrapping exactly the rendered
`web-question` of its question; so there are as many panels and as many
`web-question` elements as questions, and every panel has the same `data-label`,
the assessment's `tabLabel`. -/
theorem tabs_one_panel_per_question (md : Markdown) (a : AssessmentData)
    (hn : 1 < a.questions.length) (hv : a.valid = true) :
    ∃ panels, contentTemplate md a
          = .ok (.element "web-tabs"
              [.quoted "class" "web-assessment__content",
                .quoted "label" (printed a.tabLabel ++ "s for knowledge self check")]
              panels "web-tabs")
      ∧ panels.length = a.questions.length
      ∧ List.Forall₂ (fun q panel => ∃ qm, questionTemplate md q = .ok qm
            ∧ qm.openTag = some "web-question"
            ∧ panel = .element "div"
                [.quoted "class" "web-tabs__panel", .quoted "role" "tabpanel",
                  .quoted "data-label" (printed a.tabLabel), .bare "hidden"]
                [qm] "div") a.questions panels
      ∧ (Markup.nodesList panels).countP (fun n => hasClass "web-tabs__panel" n.2)
          = a.questions.length
      ∧ (Markup.nodesList panels).countP (fun n => n.1 == "web-question")
          = a.questions.length
      ∧ (Markup.nodesList panels).countP (fun n => n.1 == "web-tabs") = 0
      ∧ (∀ l, a.tabLabel = some l → ∀ panel ∈ panels,
          Attr.quoted "data-label" l ∈ panel.attrs) := by
  have hq : ∀ q ∈ a.questions, q.valid = true := List.all_eq_true.mp hv
  obtain ⟨panels, hp, hall, hlen⟩ :=
    arrayMap_of_forall_ok (fun q => tabTemplate md q a) a.questions
      (fun q hqm => tabTemplate_of_valid md a q (hq q hqm))
  have hall2 : List.Forall₂ (fun q panel => ∃ qm, questionTemplate md q = .ok qm
      ∧ qm.openTag = some "web-question"
      ∧ panel = .element "div" (panelAttrs a) [qm] "div") a.questions panels :=
    hall.imp (fun q panel h => tabTemplate_ok md a q panel h)
  have e0 : hasClass "web-tabs__panel" [] = false := rfl
  refine ⟨panels, ?_, hlen, hall2, ?_, ?_, ?_, ?_⟩
  · simp [contentTemplate, hn, hp]
  · rw [arrayMap_tabTemplate_countP md _ (innerShapes_hasClass _ (by decide)) a _ _ hp]
    simp [hasClass_panelAttrs, e0]
  · rw [arrayMap_tabTemplate_countP md _
      (innerShapes_tag _ (by decide) (by decide) (by decide) (by decide) (by decide)) a _ _ hp]
    simp
  · rw [arrayMap_tabTemplate_countP md _
      (innerShapes_tag _ (by decide) (by decide) (by decide) (by decide) (by decide)) a _ _ hp]
    simp
  · intro l hl panel hpanel
    have hshape : ∀ ps : List Markup, ∀ qs : List Question,
        List.Forall₂ (fun q panel => ∃ qm, questionTemplate md q = .ok qm
          ∧ qm.openTag = some "web-question"
          ∧ panel = .element "div" (panelAttrs a) [qm] "div") qs ps →
        ∀ x ∈ ps, ∃ qm, x = Markup.element "div" (panelAttrs a) [qm] "div" := by
      intro ps qs h
      induction h with
      | nil => intro x hx; cases hx
      | cons h1 _ ih =>
        intro x hx
        rcases List.mem_cons.mp hx with rfl | hx
        · obtain ⟨qm, _, _, h⟩ := h1
          exact ⟨qm, h⟩
        · exact ih x hx
    obtain ⟨qm, rfl⟩ := hshape panels a.questions hall2 panel hpanel
    simp [Markup.attrs, panelAttrs, hl, printed]

/-- Witness of C7 on an assessment with two valid questions and the tab label
`Sample`. -/
theorem tabs_one_panel_per_question_witness :
    ∃ panels, contentTemplate ⟨id, id, id⟩ ⟨none, some "Sample", none,
            [⟨⟨.str "think-and-check", none, none, .undefined, "a", some []⟩, none, none⟩,
              ⟨⟨.str "multiple-choice", none, none, .undefined, "b", some []⟩, none, none⟩]⟩
          = .ok (.element "web-tabs"
              [.quoted "class" "web-assessment__content",
                .quoted "label" ("Sample" ++ "s for knowledge self check")]
              panels "web-tabs")
      ∧ panels.length = 2
      ∧ List.Forall₂ (fun q panel => ∃ qm, questionTemplate ⟨id, id, id⟩ q = .ok qm
            ∧ qm.openTag = some "web-question"
            ∧ panel = .element "div"
                [.quoted "class" "web-tabs__panel", .quoted "role" "tabpanel",
                  .quoted "data-label" "Sample", .bare "hidden"]
                [qm] "div")
          [⟨⟨.str "think-and-check", none, none, .undefined, "a", some []⟩, none, none⟩,
            ⟨⟨.str "multiple-choice", none, none, .undefined, "b", some []⟩, none, none⟩]
          panels
      ∧ (Markup.nodesList panels).countP (fun n => hasClass "web-tabs__panel" n.2) = 2
      ∧ (Markup.nodesList panels).countP (fun n => n.1 == "web-question") = 2
      ∧ (Markup.nodesList panels).countP (fun n => n.1 == "web-tabs") = 0
      ∧ (∀ l, some "Sample" = some l → ∀ panel ∈ panels,
          Attr.quoted "data-label" l ∈ panel.attrs) :=
  tabs_one_panel_per_question ⟨id, id, id⟩ ⟨none, some "Sample", none,
    [⟨⟨.str "think-and-check", none, none, .undefined, "a", some []⟩, none, none⟩,
      ⟨⟨.str "multiple-choice", none, none, .undefined, "b", some []⟩, none, none⟩]⟩
    (by decide) (by decide)

/-! ## The claim on the content path -/

/-- C9, as the specification words it, fails: the last segment of `/x/reindex` is not
`index`, yet the path is shortened to `/x/re`, and the content path of the
assessment `quiz` on that page is `../../content/x/requiz.assess.js`. -/
theorem content_path_reindex_is_shortened :
    lastSegment "/x/reindex".data ≠ "index".data
      ∧ stripIndex "/x/reindex" ≠ "/x/reindex"
      ∧ stripIndex "/x/reindex" = "/x/re"
      ∧ assessmentPath "/x/reindex" "quiz" = "../../content/x/requiz.assess.js" := by
  decide

/-- C9, amended: for every page path and every non-empty assessment name the content
lookup is asked for the content root, then the stripped page path, then the name,
then `.assess.js` (the renderer fails when that path has no record and depends on
the lookup at that path only), where stripping removes the trailing characters
`index` from a path that ends with them, whether or not they are a whole segment,
and leaves every path that does not end with them unchanged. -/
theorem content_path_strips_trailing_index (md : Markdown)
    (require require2 : String → Option AssessmentData) (p : Page) (a : String)
    (ha : a ≠ "") :
    assessmentPath p.filePathStem a
        = "../../content" ++ stripIndex p.filePathStem ++ a ++ ".assess.js"
      ∧ (require ("../../content" ++ stripIndex p.filePathStem ++ a ++ ".assess.js") = none →
          moduleExports md require (some p) (some a) = .error .notFound)
      ∧ (require ("../../content" ++ stripIndex p.filePathStem ++ a ++ ".assess.js")
            = require2 ("../../content" ++ stripIndex p.filePathStem ++ a ++ ".assess.js") →
          moduleExports md require (some p) (some a)
            = moduleExports md require2 (some p) (some a))
      ∧ (∀ q, p.filePathStem = q ++ "index" → stripIndex p.filePathStem = q)
      ∧ ((∀ q, p.filePathStem ≠ q ++ "index") → stripIndex p.filePathStem = p.filePathStem) := by
  have hta : truthyStr (some a) = true := by simp [truthyStr, ha]
  refine ⟨rfl, ?_, ?_, ?_, ?_⟩
  · intro h
    unfold moduleExports
    simp only [hta, Bool.not_true, Bool.false_eq_true, if_false, printed]
    unfold assessmentPath
    rw [h]
  · intro h
    unfold moduleExports
    simp only [hta, Bool.not_true, Bool.false_eq_true, if_false, printed]
    unfold assessmentPath
    rw [h]
  · intro q hq
    rw [hq]
    unfold stripIndex
    rw [String.data_append, stripIndexChars_append]
  · intro h
    unfold stripIndex
    rw [stripIndexChars_of_not_suffix]
    intro q hq
    apply h (String.mk q)
    apply String.ext
    rw [String.data_append, hq]

/-- Witness of C9, amended, on the page `/x/index` and on the page `/x/reindex`. -/
theorem content_path_strips_trailing_index_witness :
    assessmentPath "/x/index" "quiz" = "../../content" ++ stripIndex "/x/index" ++ "quiz" ++ ".assess.js"
      ∧ moduleExports ⟨id, id, id⟩ (fun _ => none) (some ⟨"/x/index"⟩) (some "quiz")
          = .error .notFound
      ∧ moduleExports ⟨id, id, id⟩ (fun _ => none) (some ⟨"/x/index"⟩) (some "quiz")
          = moduleExports ⟨id, id, id⟩
              (fun path => if path = "../../content/x/quiz.assess.js" then none
                else some ⟨none, none, none, []⟩)
              (some ⟨"/x/index"⟩) (some "quiz")
      ∧ stripIndex "/x/index" = "/x/"
      ∧ stripIndex "/x/reindex" = "/x/re"
      ∧ stripIndex "/x/about" = "/x/about" :=
  ⟨(content_path_strips_trailing_index ⟨id, id, id⟩ (fun _ => none) (fun _ => none)
      ⟨"/x/index"⟩ "quiz" (by decide)).1,
    (content_path_strips_trailing_index ⟨id, id, id⟩ (fun _ => none) (fun _ => none)
      ⟨"/x/index"⟩ "quiz" (by decide)).2.1 rfl,
    (content_path_strips_trailing_index ⟨id, id, id⟩ (fun _ => none)
      (fun path => if path = "../../content/x/quiz.assess.js" then none
        else some ⟨none, none, none, []⟩)
      ⟨"/x/index"⟩ "quiz" (by decide)).2.2.1 rfl,
    (content_path_strips_trailing_index ⟨id, id, id⟩ (fun _ => none) (fun _ => none)
      ⟨"/x/index"⟩ "quiz" (by decide)).2.2.2.1 "/x/" (by decide),
    (content_path_strips_trailing_index ⟨id, id, id⟩ (fun _ => none) (fun _ => none)
      ⟨"/x/reindex"⟩ "quiz" (by decide)).2.2.2.1 "/x/re" (by decide),
    (content_path_strips_trailing_index ⟨id, id, id⟩ (fun _ => none) (fun _ => none)
      ⟨"/x/about"⟩ "quiz" (by decide)).2.2.2.2 (by
        intro q hq
        have h1 := congrArg String.data hq
        have h2 : "index".data.isSuffixOf "/x/about".data = true :=
          List.isSuffixOf_iff_suffix.mpr ⟨q.data, by rw [h1, String.data_append]⟩
        exact absurd h2 (by decide))⟩

end Assessment
